import Mathlib

/-
Verification of the expense-validator function and of the BPMN validation
engine described by the repository specification.

Part I embeds `validate_expense` from
`src/examples/functions/expense-validator.py`.  Python runtime values that
the function can observe are modelled by `PVal`; numeric values are modelled
as integers (the function only compares amounts against the integer
thresholds 0, 25, 100 and 500).  Python dictionaries are association lists
with distinct keys looked up first-match.  Statements that can raise a
Python exception (`.lower()` on a non-string, `len()` of a non-string,
ordered comparison of a non-number against an int) are modelled by
`Except String`, with the error string naming the Python exception, raised
at the same program point at which CPython raises it.
-/

set_option autoImplicit false

/-- Model of a Python runtime value as observed by validate_expense. -/
inductive PVal where
  | none
  | bool (b : Bool)
  | int (n : Int)
  | str (s : String)
deriving DecidableEq, Repr

/-- Python truthiness: None, False, 0 and the empty string are falsy. -/
def PVal.truthy : PVal → Bool
  | .none => false
  | .bool b => b
  | .int n => n != 0
  | .str s => s != ""

/-- Python isinstance(v, (int, float)); bool is a subclass of int. -/
def PVal.isNumber : PVal → Bool
  | .bool _ => true
  | .int _ => true
  | _ => false

/-- Numeric value of an int-like Python value (True counts as 1). -/
def PVal.toNum : PVal → Option Int
  | .bool b => some (if b then 1 else 0)
  | .int n => some n
  | _ => Option.none

/-- A Python dict: association list, first match wins, keys unique in practice. -/
abbrev PyDict : Type := List (String × PVal)

instance {ε α : Type} [DecidableEq ε] [DecidableEq α] : DecidableEq (Except ε α) :=
  fun x y =>
    match x, y with
    | .ok a, .ok b =>
      if h : a = b then isTrue (by rw [h]) else isFalse (by intro hh; cases hh; exact h rfl)
    | .error a, .error b =>
      if h : a = b then isTrue (by rw [h]) else isFalse (by intro hh; cases hh; exact h rfl)
    | .ok _, .error _ => isFalse (by intro hh; cases hh)
    | .error _, .ok _ => isFalse (by intro hh; cases hh)

/-- Python d.get(k): the stored value (possibly None) or None when absent. -/
def pyGet (d : PyDict) (k : String) : PVal :=
  match List.lookup k d with
  | some v => v
  | Option.none => PVal.none

/-- Python d.get(k, default): the stored value when the key is present. -/
def pyGetD (d : PyDict) (k : String) (dflt : PVal) : PVal :=
  match List.lookup k d with
  | some v => v
  | Option.none => dflt

/-- Lower-case one character (the ASCII range, which covers every string
the validator compares against). -/
def charLower (c : Char) : Char :=
  if 'A' ≤ c ∧ c ≤ 'Z' then Char.ofNat (c.toNat + 32) else c

/-- Lower-case a string character by character. -/
def strLower (s : String) : String :=
  String.mk (s.toList.map charLower)

/-- Python v.lower(): defined on str only, AttributeError otherwise. -/
def pyLower (v : PVal) : Except String String :=
  match v with
  | .str s => Except.ok (strLower s)
  | _ => Except.error "AttributeError: object has no attribute lower"

/-- Lines 34-39: the valid_categories list. -/
def validCategories : List String :=
  ["travel", "meals", "supplies", "equipment", "training", "other"]

/-- Lines 26-32: required-amount validation; never raises.  The source
looks the amount value up again at each of the three checks. -/
def amountErrors (expense : PyDict) : List String :=
  if (pyGet expense "amount").truthy = false then ["Amount is required"]
  else if (pyGet expense "amount").isNumber = false then ["Amount must be a number"]
  else if ((pyGet expense "amount").toNum.getD 0) ≤ 0 then ["Amount must be positive"]
  else []

/-- Lines 34-39: category validation; raises AttributeError when the stored
category value is not a string.  Returns the errors to append and the
lowered category string. -/
def categoryStep (expense : PyDict) : Except String (List String × String) :=
  match pyLower (pyGetD expense "category" (PVal.str "")) with
  | Except.error e => Except.error e
  | Except.ok category =>
    if category = "" then Except.ok (["Category is required"], category)
    else if validCategories.contains category = false then
      Except.ok (["Invalid category. Must be one of: travel, meals, supplies, equipment, training, other"], category)
    else Except.ok ([], category)

/-- Lines 41-47: date validation; len() of a truthy non-string raises
TypeError.  Python indexes strings by code point, modelled via toList. -/
def dateErrors (expense : PyDict) : Except String (List String) :=
  if (pyGet expense "date").truthy = false then Except.ok ["Date is required"]
  else
    match pyGetD expense "date" (PVal.str "") with
    | .str s =>
      if s.toList.length ≠ 10 ∨ s.toList.get? 4 ≠ some '-' ∨ s.toList.get? 7 ≠ some '-' then
        Except.ok ["Date must be in YYYY-MM-DD format"]
      else Except.ok []
    | _ => Except.error "TypeError: object of this type has no len"

/-- The message appended at line 53. -/
def receiptErrMsg : String := "Receipt required for expenses over $100"

/-- The message appended at line 55. -/
def receiptWarnMsg : String := "Receipt recommended for expenses over $25"

/-- The result dictionary built at lines 69-76. -/
structure ExpenseResult where
  valid : Bool
  errors : List String
  warnings : List String
  approval_level : String
  amount : PVal
  category : String
deriving DecidableEq, Repr

/-- Lines 49-76 of expense-validator.py, reached only when the amount
value (with the line-50 default 0 for a missing key) is a number with
numeric value a: the receipt rules, the description rule, the approval
level and the returned dictionary. -/
def buildResult (expense : PyDict) (catErrs : List String) (category : String)
    (dErrs : List String) (a : Int) : ExpenseResult :=
  let errs3 := amountErrors expense ++ catErrs ++ dErrs
  let ew :=
    if a > 25 ∧ (pyGet expense "receipt_url").truthy = false then
      if a > 100 then (errs3 ++ [receiptErrMsg], ([] : List String))
      else (errs3, [receiptWarnMsg])
    else (errs3, [])
  let warns2 :=
    if a > 500 ∧ (pyGet expense "description").truthy = false then
      ew.2 ++ ["Description recommended for expenses over $500"]
    else ew.2
  let approval := if a < 100 then "auto" else if a < 500 then "manager" else "finance"
  { valid := ew.1.isEmpty
    errors := ew.1
    warnings := warns2
    approval_level := approval
    amount := pyGetD expense "amount" (PVal.int 0)
    category := category }

/-- Lines 23-76 of expense-validator.py.  The statements run in source
order: the amount checks never raise, the category step may raise
AttributeError, the date step may raise TypeError, and the comparison
amount > 25 at line 51 raises TypeError when the stored amount value is
not a number (the line-50 default 0 applies only when the key is absent). -/
def validate_expense (expense : PyDict) : Except String ExpenseResult :=
  match categoryStep expense with
  | Except.error e => Except.error e
  | Except.ok (catErrs, category) =>
    match dateErrors expense with
    | Except.error e => Except.error e
    | Except.ok dErrs =>
      match (pyGetD expense "amount" (PVal.int 0)).toNum with
      | Option.none =>
        Except.error "TypeError: comparison not supported between non-number and int"
      | some a => Except.ok (buildResult expense catErrs category dErrs a)

example :
    validate_expense [("amount", PVal.int 50), ("category", PVal.str "meals"),
      ("date", PVal.str "2024-01-15")] =
    Except.ok
      { valid := true, errors := [], warnings := [receiptWarnMsg], approval_level := "auto",
        amount := PVal.int 50, category := "meals" } := by decide

example :
    validate_expense [("amount", PVal.int 1500), ("category", PVal.str "equipment"),
      ("date", PVal.str "2024-01-15")] =
    Except.ok
      { valid := false, errors := [receiptErrMsg],
        warnings := ["Description recommended for expenses over $500"],
        approval_level := "finance", amount := PVal.int 1500, category := "equipment" } := by
  decide

example :
    validate_expense [("amount", PVal.int 250), ("category", PVal.str "travel"),
      ("date", PVal.str "2024-01-15"), ("receipt_url", PVal.str "https://x")] =
    Except.ok
      { valid := true, errors := [], warnings := [], approval_level := "manager",
        amount := PVal.int 250, category := "travel" } := by decide

example :
    (validate_expense [("amount", PVal.none)]).isOk = false := by decide

/-
Part II models the BPMN validation engine.  The engine itself (the
roughly 650-line reference core of spec section 2) is not among the
repository sources available under src/, which contain only the unrelated
expense-validator example that section 1 of the spec excludes from the
engine's scope.  Every definition below is therefore modelled from the
spec, faithful to its words, as recorded in each doc comment.
-/

/-- Modelled from the spec (section 3, ValidationIssue): issue severity. -/
inductive Severity where
  | error
  | warning
  | info
deriving DecidableEq, Repr

/-- Modelled from the spec (section 3, ValidationIssue): immutable record
with originating level, severity, stable code, message, optional element
identifier, optional element-kind label, optional suggestion. -/
structure ValidationIssue where
  level : Nat
  severity : Severity
  code : String
  message : String
  elementId : Option String
  elementKind : Option String
  suggestion : Option String
deriving DecidableEq, Repr

/-- Modelled from the spec (section 3, ValidationResult): overall validity
flag, issue sequence in discovery order, element-count mapping. -/
structure ValidationResult where
  valid : Bool
  issues : List ValidationIssue
  counts : List (String × Nat)
deriving DecidableEq, Repr

/-- Modelled from the spec (sections 3 and 7): appending an issue keeps
the discovery order and flips validity to false exactly on error
severity, after which it stays false. -/
def ValidationResult.addIssue (r : ValidationResult) (i : ValidationIssue) : ValidationResult :=
  { r with
    issues := r.issues ++ [i]
    valid := if i.severity = Severity.error then false else r.valid }

/-- Modelled from the spec (section 3): the result starts valid with no
issues. -/
def freshResult : ValidationResult :=
  { valid := true, issues := [], counts := [] }

/-- Snapshot a finished run: fold every discovered issue into a fresh
result and attach the element counts. -/
def finishWith (counts : List (String × Nat)) (issues : List ValidationIssue) : ValidationResult :=
  { issues.foldl ValidationResult.addIssue freshResult with counts := counts }

/-- Modelled from the spec (section 3, Element): a node of the parsed
tree with its local (namespace-stripped) tag name, string attributes and
children.  The spec's dual qualified/unqualified lookup helper is
modelled as a single attribute map (section 9, design note 1). -/
inductive Element where
  | mk (localName : String) (attrs : List (String × String)) (children : List Element)

/-- Local tag name of an element. -/
def Element.localName : Element → String
  | .mk ln _ _ => ln

/-- Attribute list of an element. -/
def Element.attrs : Element → List (String × String)
  | .mk _ a _ => a

/-- Children of an element. -/
def Element.children : Element → List Element
  | .mk _ _ c => c

/-- Attribute lookup on an element. -/
def attr (e : Element) (k : String) : Option String :=
  List.lookup k e.attrs

/-- First child with the given local name. -/
def childNamed (e : Element) (n : String) : Option Element :=
  e.children.find? (fun c => c.localName = n)

mutual
/-- Depth-first preorder traversal of an element tree (section 4.3:
single depth-first traversal of the whole tree). -/
def allElements : Element → List Element
  | .mk ln a cs => Element.mk ln a cs :: allElementsList cs

/-- Traversal of a forest, left to right. -/
def allElementsList : List Element → List Element
  | [] => []
  | e :: es => allElements e ++ allElementsList es
end

/-- Modelled from the spec (section 4.1): outcome of the document
loader, the only level whose failure is fatal. -/
inductive LoadResult where
  | parseFailed (diag : String)
  | notFound
  | loaded (root : Element)

/-- Modelled from the spec (section 4.3): state built by the indexer
traversal: identifier index (first occurrence wins), issues in discovery
order, flow-edge list, element counts. -/
structure IndexState where
  index : List (String × Element)
  issues : List ValidationIssue
  edges : List (String × String)
  counts : List (String × Nat)

/-- Increment the count of a local tag name in the count mapping. -/
def bumpCount : List (String × Nat) → String → List (String × Nat)
  | [], k => [(k, 1)]
  | (k2, n) :: rest, k =>
    if k2 = k then (k2, n + 1) :: rest else (k2, n) :: bumpCount rest k

/-- The DUPLICATE_ID issue for identifier i declared by an element of
the given kind (section 4.3). -/
def dupIssue (i : String) (kind : String) : ValidationIssue :=
  { level := 3, severity := Severity.error, code := "DUPLICATE_ID"
    message := "Duplicate id: " ++ i
    elementId := some i, elementKind := some kind, suggestion := Option.none }

/-- Modelled from the spec (section 4.3): the identifier sub-step.  An
element carrying an identifier already in the index is reported as
DUPLICATE_ID and does not overwrite the entry; otherwise it is indexed
(first occurrence wins). -/
def idStep (st : IndexState) (e : Element) : IndexState :=
  match attr e "id" with
  | Option.none => st
  | some i =>
    if (List.lookup i st.index).isSome then
      { st with issues := st.issues ++ [dupIssue i e.localName] }
    else
      { st with index := st.index ++ [(i, e)] }

/-- Modelled from the spec (section 4.3): the flow-edge sub-step.  A
sequenceFlow carrying both a source and a target reference appends that
pair to the edge list. -/
def flowStep (st : IndexState) (e : Element) : IndexState :=
  if e.localName = "sequenceFlow" then
    match attr e "sourceRef", attr e "targetRef" with
    | some s, some t => { st with edges := st.edges ++ [(s, t)] }
    | _, _ => st
  else st

/-- Modelled from the spec (section 4.3): the counting sub-step. -/
def countStep (st : IndexState) (e : Element) : IndexState :=
  { st with counts := bumpCount st.counts e.localName }

/-- Modelled from the spec (section 4.3): one traversal step of the
element indexer. -/
def indexStep (st : IndexState) (e : Element) : IndexState :=
  countStep (flowStep (idStep st e) e) e

/-- Run the indexer traversal over a list of elements in order. -/
def runIndex : IndexState → List Element → IndexState
  | st, [] => st
  | st, e :: es => runIndex (indexStep st e) es

/-- The empty indexer state. -/
def initIndexState : IndexState :=
  { index := [], issues := [], edges := [], counts := [] }

/-- Index a whole traversal starting from the empty state. -/
def buildIndex (es : List Element) : IndexState :=
  runIndex initIndexState es

/-- Modelled from the spec (section 4.3): an identifier is well-formed
when made of alphanumerics, hyphens and underscores only. -/
def validIdFormat (i : String) : Bool :=
  i.toList.all (fun c => c.isAlphanum || c = '-' || c = '_')

/-- The INVALID_ID_FORMAT warning for identifier i. -/
def idFormatIssue (i : String) : ValidationIssue :=
  { level := 3, severity := Severity.warning, code := "INVALID_ID_FORMAT"
    message := "Identifier has invalid format: " ++ i
    elementId := some i, elementKind := Option.none, suggestion := Option.none }

/-- Modelled from the spec (section 4.3): every indexed identifier is
checked against the format pattern; violations are warnings. -/
def idFormatIssues (index : List (String × Element)) : List ValidationIssue :=
  index.filterMap (fun p =>
    if validIdFormat p.1 then Option.none else some (idFormatIssue p.1))

/-- Modelled from the spec (section 4.3): require at least one startEvent
and at least one endEvent element. -/
def startEndIssues (es : List Element) : List ValidationIssue :=
  (if es.any (fun e => e.localName = "startEvent") then [] else
    [{ level := 3, severity := Severity.error, code := "NO_START_EVENT"
       message := "Process has no start event"
       elementId := Option.none, elementKind := Option.none, suggestion := Option.none }]) ++
  (if es.any (fun e => e.localName = "endEvent") then [] else
    [{ level := 3, severity := Severity.error, code := "NO_END_EVENT"
       message := "Process has no end event"
       elementId := Option.none, elementKind := Option.none, suggestion := Option.none }])

/-- Modelled from the spec (section 3, Adjacency Maps): outgoing
neighbor set of an identifier, derived from the edge list. -/
def outgoingOf (edges : List (String × String)) (i : String) : List String :=
  ((edges.filter (fun p => p.1 = i)).map (fun p => p.2)).dedup

/-- Modelled from the spec (section 3, Adjacency Maps): incoming
neighbor set of an identifier, derived from the edge list. -/
def incomingOf (edges : List (String × String)) (i : String) : List String :=
  ((edges.filter (fun p => p.2 = i)).map (fun p => p.1)).dedup

/-- The INVALID_SOURCE_REF error for an edge source (section 4.4). -/
def invalidSrcIssue (s : String) : ValidationIssue :=
  { level := 4, severity := Severity.error, code := "INVALID_SOURCE_REF"
    message := "Sequence flow references unknown source: " ++ s
    elementId := some s, elementKind := Option.none, suggestion := Option.none }

/-- The INVALID_TARGET_REF error for an edge target (section 4.4). -/
def invalidTgtIssue (t : String) : ValidationIssue :=
  { level := 4, severity := Severity.error, code := "INVALID_TARGET_REF"
    message := "Sequence flow references unknown target: " ++ t
    elementId := some t, elementKind := Option.none, suggestion := Option.none }

/-- Modelled from the spec (section 4.4): for every edge, an unresolvable
source yields INVALID_SOURCE_REF and an unresolvable target yields
INVALID_TARGET_REF; the two checks are independent per edge. -/
def invalidRefIssues (index : List (String × Element)) (edges : List (String × String)) :
    List ValidationIssue :=
  edges.flatMap (fun p =>
    (if (List.lookup p.1 index).isSome then [] else [invalidSrcIssue p.1]) ++
    (if (List.lookup p.2 index).isSome then [] else [invalidTgtIssue p.2]))

/-- Modelled from the spec (sections 4.4 and glossary): the flow-bearing
element kinds — ordinary and specialized tasks, call activities,
sub-processes, all gateway kinds, intermediate catch/throw events.
Start/end events and data objects are intentionally excluded. -/
def flowBearingKinds : List String :=
  ["task", "userTask", "serviceTask", "scriptTask", "sendTask", "receiveTask",
   "manualTask", "businessRuleTask", "callActivity", "subProcess",
   "exclusiveGateway", "parallelGateway", "inclusiveGateway", "eventBasedGateway",
   "complexGateway", "intermediateCatchEvent", "intermediateThrowEvent"]

/-- The ORPHAN_ELEMENT error naming the element and its kind (section 4.4). -/
def orphanIssue (i : String) (kind : String) : ValidationIssue :=
  { level := 4, severity := Severity.error, code := "ORPHAN_ELEMENT"
    message := "Element " ++ i ++ " of kind " ++ kind ++ " is not connected to any sequence flow"
    elementId := some i, elementKind := some kind, suggestion := Option.none }

/-- Modelled from the spec (section 4.4): every indexed element of a
flow-bearing kind with neither an incoming nor an outgoing adjacency
entry is reported as ORPHAN_ELEMENT. -/
def orphanIssues (index : List (String × Element)) (edges : List (String × String)) :
    List ValidationIssue :=
  index.filterMap (fun p =>
    if flowBearingKinds.contains p.2.localName
        && (incomingOf edges p.1).isEmpty && (outgoingOf edges p.1).isEmpty then
      some (orphanIssue p.1 p.2.localName)
    else Option.none)

/-- Modelled from the spec (section 4.4): the gateway kinds subject to
shape validation. -/
def gatewayKinds : List String :=
  ["exclusiveGateway", "parallelGateway", "inclusiveGateway"]

/-- Modelled from the spec (section 4.4): whether an outgoing flow is
explicitly marked as the gateway's default path. -/
def isDefaultFlow (gw : Element) (f : Element) : Bool :=
  match attr f "id" with
  | some fid => attr gw "default" = some fid
  | Option.none => false

/-- Modelled from the spec (section 4.4): whether a flow carries a
condition expression child. -/
def hasCondition (f : Element) : Bool :=
  (childNamed f "conditionExpression").isSome

/-- A flow that lacks both a condition expression and the default
marking (section 4.4). -/
def lacksCondAndDefault (gw : Element) (f : Element) : Bool :=
  !(hasCondition f) && !(isDefaultFlow gw f)

/-- The MISSING_CONDITION warning for one outgoing flow (section 4.4). -/
def missingCondIssue (f : Element) : ValidationIssue :=
  { level := 4, severity := Severity.warning, code := "MISSING_CONDITION"
    message := "Outgoing flow of exclusive gateway has no condition and is not the default"
    elementId := attr f "id", elementKind := some "sequenceFlow", suggestion := Option.none }

/-- Modelled from the spec (section 4.4): collect the outgoing flows
lacking both a condition and the default marking; if the collected set
is non-empty and it is not the case that exactly one flow lacks a
condition while no flow is marked default, report every collected flow
individually as MISSING_CONDITION. -/
def missingConditionIssues (gw : Element) (outFlows : List Element) : List ValidationIssue :=
  let s := outFlows.filter (lacksCondAndDefault gw)
  if s.isEmpty then []
  else if s.length = 1 && outFlows.all (fun f => !(isDefaultFlow gw f)) then []
  else s.map missingCondIssue

/-- The GATEWAY_SINGLE_OUTPUT warning (section 4.4). -/
def singleOutputIssue (i : String) (kind : String) : ValidationIssue :=
  { level := 4, severity := Severity.warning, code := "GATEWAY_SINGLE_OUTPUT"
    message := "Gateway " ++ i ++ " has a single input and no branching output"
    elementId := some i, elementKind := some kind, suggestion := Option.none }

/-- The sequence-flow elements leaving a given element identifier. -/
def outgoingFlowElems (es : List Element) (i : String) : List Element :=
  es.filter (fun f => f.localName = "sequenceFlow" && attr f "sourceRef" = some i)

/-- Modelled from the spec (section 4.4): gateway shape validation over
the indexed elements — a GATEWAY_SINGLE_OUTPUT warning for a gateway
with exactly one incoming and fewer than two outgoing edges, and
exclusive-gateway condition validation when an exclusive gateway has
more than one outgoing edge. -/
def gatewayShapeIssues (index : List (String × Element)) (edges : List (String × String))
    (es : List Element) : List ValidationIssue :=
  index.flatMap (fun p =>
    if gatewayKinds.contains p.2.localName then
      (if (incomingOf edges p.1).length = 1 && (outgoingOf edges p.1).length < 2 then
        [singleOutputIssue p.1 p.2.localName]
      else []) ++
      (if p.2.localName = "exclusiveGateway" && (outgoingOf edges p.1).length > 1 then
        missingConditionIssues p.2 (outgoingFlowElems es p.1)
      else [])
    else [])

/-- Modelled from the spec (section 4.4): the full connectivity level —
edge reference validation, orphan detection, gateway shape validation. -/
def level4Issues (index : List (String × Element)) (edges : List (String × String))
    (es : List Element) : List ValidationIssue :=
  invalidRefIssues index edges ++ orphanIssues index edges ++ gatewayShapeIssues index edges es

/-- The BPMN 2.0 model namespace URI (section 6). -/
def bpmnNamespaceUri : String := "http://www.omg.org/spec/BPMN/20100524/MODEL"

/-- Modelled from the spec (section 4.2): whether the BPMN namespace is
declared on the root, checked over the root attribute set (covering both
a prefix binding and an implicit default namespace in the model). -/
def bpmnNamespaceDeclared (root : Element) : Bool :=
  root.attrs.any (fun p => p.2 = bpmnNamespaceUri)

/-- Modelled from the spec (section 4.2): the basics checker.  A root
whose local name is not definitions yields INVALID_ROOT and returns
early; otherwise the namespace check warns, then the process container
is looked up anywhere in the tree (absence is NO_PROCESS and stops this
sub-step), and the process must declare a non-empty identifier
(PROCESS_NO_ID otherwise). -/
def level2Issues (root : Element) : List ValidationIssue :=
  if root.localName ≠ "definitions" then
    [{ level := 2, severity := Severity.error, code := "INVALID_ROOT"
       message := "Root element is not definitions"
       elementId := Option.none, elementKind := some root.localName, suggestion := Option.none }]
  else
    (if bpmnNamespaceDeclared root then [] else
      [{ level := 2, severity := Severity.warning, code := "MISSING_BPMN_NAMESPACE"
         message := "BPMN namespace is not declared on the document"
         elementId := Option.none, elementKind := Option.none, suggestion := Option.none }]) ++
    (match (allElements root).find? (fun e => e.localName = "process") with
     | Option.none =>
       [{ level := 2, severity := Severity.error, code := "NO_PROCESS"
          message := "Document has no process element"
          elementId := Option.none, elementKind := Option.none, suggestion := Option.none }]
     | some p =>
       if (attr p "id").getD "" ≠ "" then [] else
         [{ level := 2, severity := Severity.error, code := "PROCESS_NO_ID"
            message := "Process element has no id attribute"
            elementId := Option.none, elementKind := some "process", suggestion := Option.none }])

/-- Helper for level 5: an issue of the domain rule engine. -/
def ruleIssue (sev : Severity) (code : String) (msg : String) (e : Element) : ValidationIssue :=
  { level := 5, severity := sev, code := code, message := msg
    elementId := attr e "id", elementKind := some e.localName, suggestion := Option.none }

/-- Modelled from the spec (section 4.5, service task): requires an
extensions container, an agent-configuration child within it, and an
agent identifier or agent type; an inline agent type without an agent
identifier expects a prompt attribute. -/
def serviceTaskIssues (e : Element) : List ValidationIssue :=
  match childNamed e "extensionElements" with
  | Option.none => [ruleIssue Severity.error "SERVICE_TASK_NO_CONFIG"
      "Service task has no extensions container" e]
  | some ext =>
    match childNamed ext "agentConfig" with
    | Option.none => [ruleIssue Severity.error "SERVICE_TASK_NO_AGENT"
        "Service task has no agent configuration" e]
    | some ac =>
      if (attr ac "agentId").isNone && (attr ac "agentType").isNone then
        [ruleIssue Severity.error "AGENT_CONFIG_INCOMPLETE"
          "Agent configuration declares neither an agent id nor an agent type" e]
      else if (attr ac "agentType").isSome && (attr ac "agentId").isNone
          && (attr ac "prompt").isNone then
        [ruleIssue Severity.warning "AGENT_NO_PROMPT"
          "Inline agent configuration has no prompt" e]
      else []

/-- Modelled from the spec (section 4.5, user task): an assignee comes
from a direct attribute, a platform-namespaced attribute, or a nested
task-definition child; candidate groups from a direct attribute; neither
present is a warning. -/
def userTaskIssues (e : Element) : List ValidationIssue :=
  let assignee :=
    match attr e "assignee" with
    | some v => some v
    | Option.none =>
      match attr e "platformAssignee" with
      | some v => some v
      | Option.none =>
        match childNamed e "taskDefinition" with
        | some td => attr td "assignee"
        | Option.none => Option.none
  let groups := attr e "candidateGroups"
  if assignee.isNone && groups.isNone then
    [ruleIssue Severity.warning "USER_TASK_NO_ASSIGNEE"
      "User task has no assignee and no candidate groups" e]
  else []

/-- Modelled from the spec (section 4.5, script task): requires an
extensions container, a script-task configuration child, and a function
identifier or function name. -/
def scriptTaskIssues (e : Element) : List ValidationIssue :=
  match childNamed e "extensionElements" with
  | Option.none => [ruleIssue Severity.error "SCRIPT_TASK_NO_CONFIG"
      "Script task has no extensions container" e]
  | some ext =>
    match childNamed ext "scriptTaskConfig" with
    | Option.none => [ruleIssue Severity.error "SCRIPT_TASK_NO_FUNCTION"
        "Script task has no script-task configuration" e]
    | some cfg =>
      if (attr cfg "functionId").isNone && (attr cfg "functionName").isNone then
        [ruleIssue Severity.error "FUNCTION_CONFIG_INCOMPLETE"
          "Script-task configuration declares neither a function id nor a function name" e]
      else []

/-- Modelled from the spec (section 4.5, send task): a missing extensions
container or send-task configuration child is only warning severity. -/
def sendTaskIssues (e : Element) : List ValidationIssue :=
  match childNamed e "extensionElements" with
  | Option.none => [ruleIssue Severity.warning "SEND_TASK_NO_CONFIG"
      "Send task has no extensions container" e]
  | some ext =>
    match childNamed ext "sendTaskConfig" with
    | Option.none => [ruleIssue Severity.warning "SEND_TASK_NO_EMAIL"
        "Send task has no send-task configuration" e]
    | some _ => []

/-- Modelled from the spec (section 4.5, call activity): a called-element
reference comes from the called-target attribute or a nested
call-activity configuration child; absence of both is an error. -/
def callActivityIssues (e : Element) : List ValidationIssue :=
  if (attr e "calledElement").isNone && (childNamed e "callActivityConfig").isNone then
    [ruleIssue Severity.error "CALL_ACTIVITY_NO_TARGET"
      "Call activity has no called-element reference" e]
  else []

/-- Modelled from the spec (section 4.5, timer-bearing elements):
intermediate catch events, boundary events, and anything whose kind name
contains timer. -/
def timerBearing (ln : String) : Bool :=
  ln = "intermediateCatchEvent" || ln = "boundaryEvent" || (ln.splitOn "timer").length > 1

/-- Modelled from the spec (section 4.5, timers): when a
timer-event-definition child exists it must declare a duration, date or
cycle; the absence of the child itself is not checked. -/
def timerIssues (e : Element) : List ValidationIssue :=
  match childNamed e "timerEventDefinition" with
  | Option.none => []
  | some td =>
    if (attr td "timeDuration").isNone && (attr td "timeDate").isNone
        && (attr td "timeCycle").isNone then
      [ruleIssue Severity.error "TIMER_NO_DEFINITION"
        "Timer event definition declares no duration, date or cycle" e]
    else []

/-- Modelled from the spec (section 4.5): per-element dispatch of the
domain rule engine, selected by element kind. -/
def level5ElemIssues (e : Element) : List ValidationIssue :=
  match e.localName with
  | "serviceTask" => serviceTaskIssues e
  | "userTask" => userTaskIssues e
  | "scriptTask" => scriptTaskIssues e
  | "sendTask" => sendTaskIssues e
  | "callActivity" => callActivityIssues e
  | ln => if timerBearing ln then timerIssues e else []

/-- Modelled from the spec (section 4.5): the domain rule engine applied
to every element of the traversal. -/
def level5Issues (es : List Element) : List ValidationIssue :=
  es.flatMap level5ElemIssues

/-- The single level-1 issue emitted on a parse failure, with a message
including the underlying parser diagnostic (section 4.1). -/
def xmlParseIssue (diag : String) : ValidationIssue :=
  { level := 1, severity := Severity.error, code := "XML_PARSE_ERROR"
    message := "XML parse error: " ++ diag
    elementId := Option.none, elementKind := Option.none, suggestion := Option.none }

/-- The single level-1 issue emitted on a missing file (section 4.1). -/
def fileNotFoundIssue : ValidationIssue :=
  { level := 1, severity := Severity.error, code := "FILE_NOT_FOUND"
    message := "Input file not found"
    elementId := Option.none, elementKind := Option.none, suggestion := Option.none }

/-- The full five-level issue list of a successfully loaded document, in
discovery order: basics, indexer traversal findings, identifier-format
checks, start/end requirements, connectivity, domain rules. -/
def pipelineIssues (root : Element) : List ValidationIssue :=
  let es := allElements root
  let st := buildIndex es
  level2Issues root ++ st.issues ++ idFormatIssues st.index ++ startEndIssues es ++
    level4Issues st.index st.edges es ++ level5Issues es

/-- Element counts of a successfully loaded document. -/
def pipelineCounts (root : Element) : List (String × Nat) :=
  (buildIndex (allElements root)).counts

/-- Modelled from the spec (sections 2, 4.1 and 7): the pipeline.  A
level-1 failure emits its single issue and returns immediately; a loaded
document runs levels 2 through 5 unconditionally, accumulating every
finding into one result. -/
def runValidation : LoadResult → ValidationResult
  | .parseFailed diag => finishWith [] [xmlParseIssue diag]
  | .notFound => finishWith [] [fileNotFoundIssue]
  | .loaded root => finishWith (pipelineCounts root) (pipelineIssues root)

/-- The warnings of a result: its warning-severity issues (section 6). -/
def resultWarnings (r : ValidationResult) : List ValidationIssue :=
  r.issues.filter (fun i => i.severity = Severity.warning)

/-- Modelled from the spec (sections 6 and 8, strict mode): caller-side
policy that flips validity to false on a valid result with a non-empty
warning list, never altering the issue list. -/
def applyStrict (r : ValidationResult) : ValidationResult :=
  if r.valid && !(resultWarnings r).isEmpty then { r with valid := false } else r

/-
Helper lemmas about the result accumulator.
-/

theorem foldl_addIssue_issues (l : List ValidationIssue) (r : ValidationResult) :
    (l.foldl ValidationResult.addIssue r).issues = r.issues ++ l := by
  induction l generalizing r with
  | nil => simp
  | cons i t ih => simp [List.foldl_cons, ih, ValidationResult.addIssue]

theorem foldl_addIssue_valid (l : List ValidationIssue) (r : ValidationResult) :
    (l.foldl ValidationResult.addIssue r).valid =
      (r.valid && !(l.any (fun i => decide (i.severity = Severity.error)))) := by
  induction l generalizing r with
  | nil => simp
  | cons i t ih =>
    by_cases h : i.severity = Severity.error <;>
      simp [List.foldl_cons, ih, ValidationResult.addIssue, h]

theorem finishWith_issues (c : List (String × Nat)) (l : List ValidationIssue) :
    (finishWith c l).issues = l := by
  simp [finishWith, foldl_addIssue_issues, freshResult]

theorem finishWith_valid (c : List (String × Nat)) (l : List ValidationIssue) :
    (finishWith c l).valid = !(l.any (fun i => decide (i.severity = Severity.error))) := by
  simp [finishWith, foldl_addIssue_valid, freshResult]

theorem finishWith_valid_iff (c : List (String × Nat)) (l : List ValidationIssue) :
    (finishWith c l).valid = true ↔ ∀ i ∈ l, i.severity ≠ Severity.error := by
  simp [finishWith_valid, List.any_eq_false]

/-- Whether an element declares the identifier i. -/
def declaresId (i : String) (e : Element) : Bool :=
  attr e "id" = some i

/-- Whether an issue is a DUPLICATE_ID finding for identifier i. -/
def isDupIssueFor (i : String) (iss : ValidationIssue) : Bool :=
  iss.code = "DUPLICATE_ID" && iss.elementId = some i

/-- Stated from the spec's words, independently of the indexer: the
DUPLICATE_ID findings of a traversal, one per second-or-later occurrence
of an already-seen identifier, in traversal order. -/
def dupIssuesSpec (seen : List String) : List Element → List ValidationIssue
  | [] => []
  | e :: es =>
    match attr e "id" with
    | some i =>
      if i ∈ seen then dupIssue i e.localName :: dupIssuesSpec seen es
      else dupIssuesSpec (i :: seen) es
    | Option.none => dupIssuesSpec seen es

/-- Stated from the spec's words: the identifiers of second-and-later
occurrences, in traversal order. -/
def dupIdsSpec (seen : List String) : List Element → List String
  | [] => []
  | e :: es =>
    match attr e "id" with
    | some i =>
      if i ∈ seen then i :: dupIdsSpec seen es
      else dupIdsSpec (i :: seen) es
    | Option.none => dupIdsSpec seen es

theorem flowStep_issues (st : IndexState) (e : Element) :
    (flowStep st e).issues = st.issues := by
  unfold flowStep
  split
  · split <;> rfl
  · rfl

theorem flowStep_index (st : IndexState) (e : Element) :
    (flowStep st e).index = st.index := by
  unfold flowStep
  split
  · split <;> rfl
  · rfl

theorem indexStep_issues (st : IndexState) (e : Element) :
    (indexStep st e).issues = (idStep st e).issues := by
  show (countStep (flowStep (idStep st e) e) e).issues = _
  rw [show (countStep (flowStep (idStep st e) e) e).issues
      = (flowStep (idStep st e) e).issues from rfl]
  exact flowStep_issues _ _

theorem indexStep_index (st : IndexState) (e : Element) :
    (indexStep st e).index = (idStep st e).index := by
  show (countStep (flowStep (idStep st e) e) e).index = _
  rw [show (countStep (flowStep (idStep st e) e) e).index
      = (flowStep (idStep st e) e).index from rfl]
  exact flowStep_index _ _

theorem runIndex_issues (es : List Element) : ∀ (st : IndexState) (seen : List String),
    (∀ j : String, (List.lookup j st.index).isSome = true ↔ j ∈ seen) →
    (runIndex st es).issues = st.issues ++ dupIssuesSpec seen es := by
  induction es with
  | nil => intro st seen _; simp [runIndex, dupIssuesSpec]
  | cons e es ih =>
    intro st seen hseen
    rw [show runIndex st (e :: es) = runIndex (indexStep st e) es from rfl]
    cases hid : attr e "id" with
    | none =>
      have h1 : (indexStep st e).issues = st.issues := by
        rw [indexStep_issues]; simp [idStep, hid]
      have h2 : (indexStep st e).index = st.index := by
        rw [indexStep_index]; simp [idStep, hid]
      rw [ih (indexStep st e) seen (by rw [h2]; exact hseen), h1]
      simp [dupIssuesSpec, hid]
    | some i =>
      by_cases hmem : i ∈ seen
      · have hs : (List.lookup i st.index).isSome = true := (hseen i).mpr hmem
        have h1 : (indexStep st e).issues = st.issues ++ [dupIssue i e.localName] := by
          rw [indexStep_issues]; simp [idStep, hid, hs]
        have h2 : (indexStep st e).index = st.index := by
          rw [indexStep_index]; simp [idStep, hid, hs]
        rw [ih (indexStep st e) seen (by rw [h2]; exact hseen), h1]
        simp [dupIssuesSpec, hid, hmem]
      · have hs : (List.lookup i st.index).isSome = false := by
          rcases h : (List.lookup i st.index).isSome with _ | _
          · rfl
          · exact absurd ((hseen i).mp h) hmem
        have h1 : (indexStep st e).issues = st.issues := by
          rw [indexStep_issues]; simp [idStep, hid, hs]
        have h2 : (indexStep st e).index = st.index ++ [(i, e)] := by
          rw [indexStep_index]; simp [idStep, hid, hs]
        have hseen2 : ∀ j : String,
            (List.lookup j (indexStep st e).index).isSome = true ↔ j ∈ i :: seen := by
          intro j
          rw [h2, List.lookup_append]
          have hj : (List.lookup j [(i, e)]).isSome = (j == i) := by
            cases h : (j == i) <;> simp [List.lookup, h]
          simp only [Option.isSome_or, Bool.or_eq_true, List.mem_cons, hj, beq_iff_eq,
            hseen j]
          tauto
        rw [ih (indexStep st e) (i :: seen) hseen2, h1]
        simp [dupIssuesSpec, hid, hmem]

theorem buildIndex_issues (es : List Element) :
    (buildIndex es).issues = dupIssuesSpec [] es := by
  have h := runIndex_issues es initIndexState [] (by intro j; simp [initIndexState])
  simpa [buildIndex, initIndexState] using h

theorem runIndex_lookup (es : List Element) : ∀ (st : IndexState) (i : String),
    List.lookup i (runIndex st es).index =
      (List.lookup i st.index).or (es.find? (declaresId i)) := by
  induction es with
  | nil => intro st i; simp [runIndex]
  | cons e es ih =>
    intro st i
    rw [show runIndex st (e :: es) = runIndex (indexStep st e) es from rfl, ih]
    cases hid : attr e "id" with
    | none =>
      have h2 : (indexStep st e).index = st.index := by
        rw [indexStep_index]; simp [idStep, hid]
      have hd : declaresId i e = false := by simp [declaresId, hid]
      rw [h2, List.find?_cons_of_neg _ (by simp [hd])]
    | some j =>
      by_cases hij : i = j
      · subst hij
        have hd : declaresId i e = true := by simp [declaresId, hid]
        cases hl : List.lookup i st.index with
        | some v =>
          have hs : (List.lookup i st.index).isSome = true := by rw [hl]; rfl
          have h2 : (indexStep st e).index = st.index := by
            rw [indexStep_index]; simp [idStep, hid, hs]
          rw [h2, hl, List.find?_cons_of_pos _ (by simp [hd])]
          rfl
        | none =>
          have hs : (List.lookup i st.index).isSome = false := by rw [hl]; rfl
          have h2 : (indexStep st e).index = st.index ++ [(i, e)] := by
            rw [indexStep_index]; simp [idStep, hid, hs]
          rw [h2, List.lookup_append, hl, List.find?_cons_of_pos _ (by simp [hd])]
          simp [List.lookup]
      · have hd : declaresId i e = false := by simp [declaresId, hid, Ne.symm hij]
        have hlk : ∀ st2 : IndexState, (indexStep st2 e).index = st2.index
            ∨ (indexStep st2 e).index = st2.index ++ [(j, e)] := by
          intro st2
          rw [indexStep_index]
          by_cases hs : (List.lookup j st2.index).isSome = true
          · exact Or.inl (by simp [idStep, hid, hs])
          · refine Or.inr ?_
            simp only [Bool.not_eq_true] at hs
            simp [idStep, hid, hs]
        rcases hlk st with h2 | h2 <;>
          rw [h2, List.find?_cons_of_neg _ (by simp [hd])]
        rw [List.lookup_append]
        have hj : List.lookup i [(j, e)] = Option.none := by
          have : (i == j) = false := by simp [hij]
          simp [List.lookup, this]
        rw [hj]
        simp

theorem buildIndex_lookup (es : List Element) (i : String) :
    List.lookup i (buildIndex es).index = es.find? (declaresId i) := by
  have h := runIndex_lookup es initIndexState i
  simpa [buildIndex, initIndexState] using h

theorem dupIssuesSpec_count (es : List Element) : ∀ (seen : List String) (i : String),
    (dupIssuesSpec seen es).countP (isDupIssueFor i) =
      if i ∈ seen then es.countP (declaresId i) else es.countP (declaresId i) - 1 := by
  induction es with
  | nil => intro seen i; simp [dupIssuesSpec]
  | cons e es ih =>
    intro seen i
    cases hid : attr e "id" with
    | none =>
      have hd : declaresId i e = false := by simp [declaresId, hid]
      simp [dupIssuesSpec, hid, ih, List.countP_cons, hd]
    | some j =>
      by_cases hij : i = j
      · subst hij
        have hd : declaresId i e = true := by simp [declaresId, hid]
        by_cases hmem : i ∈ seen
        · have hdup : isDupIssueFor i (dupIssue i e.localName) = true := by
            simp [isDupIssueFor, dupIssue]
          simp [dupIssuesSpec, hid, hmem, List.countP_cons, hdup, ih, hd]
        · have : i ∈ i :: seen := List.mem_cons_self i seen
          simp [dupIssuesSpec, hid, hmem, ih, this, List.countP_cons, hd]
      · have hd : declaresId i e = false := by simp [declaresId, hid, Ne.symm hij]
        by_cases hmem : j ∈ seen
        · have hdup : isDupIssueFor i (dupIssue j e.localName) = false := by
            simp [isDupIssueFor, dupIssue, Ne.symm hij]
          simp [dupIssuesSpec, hid, hmem, List.countP_cons, hdup, ih, hd]
        · have hmem2 : (i ∈ j :: seen) = (i ∈ seen) := by
            simp [List.mem_cons, hij]
          simp [dupIssuesSpec, hid, hmem, ih, hmem2, List.countP_cons, hd]

theorem dupIssuesSpec_ids (es : List Element) : ∀ seen : List String,
    (dupIssuesSpec seen es).map (fun iss => iss.elementId) = (dupIdsSpec seen es).map some := by
  induction es with
  | nil => intro seen; simp [dupIssuesSpec, dupIdsSpec]
  | cons e es ih =>
    intro seen
    cases hid : attr e "id" with
    | none => simp [dupIssuesSpec, dupIdsSpec, hid, ih]
    | some i =>
      by_cases hmem : i ∈ seen <;>
        simp [dupIssuesSpec, dupIdsSpec, hid, hmem, ih, dupIssue]

theorem finishWith_valid_iff_issues (c : List (String × Nat)) (l : List ValidationIssue) :
    (finishWith c l).valid = true ↔
      ∀ i ∈ (finishWith c l).issues, i.severity ≠ Severity.error := by
  rw [finishWith_issues]
  exact finishWith_valid_iff c l

/-- C4: the validator is a pure function of the loaded document — running
it twice on the same input yields identical issue lists, validity flags
and counts — and issue-discovery order equals traversal order: the
duplicate-identifier findings of the indexer appear exactly in
first-discovered traversal order, as computed by the independent
traversal-order recursion dupIdsSpec, not sorted. -/
theorem validation_deterministic_and_ordered :
    (∀ inp : LoadResult,
      (runValidation inp).issues = (runValidation inp).issues ∧
      (runValidation inp).valid = (runValidation inp).valid ∧
      (runValidation inp).counts = (runValidation inp).counts) ∧
    (∀ es : List Element,
      (buildIndex es).issues.map (fun iss => iss.elementId) = (dupIdsSpec [] es).map some) := by
  refine ⟨fun inp => ⟨rfl, rfl, rfl⟩, fun es => ?_⟩
  rw [buildIndex_issues, dupIssuesSpec_ids]

/-- C5: the validity flag starts true, is set to false by exactly the
error-severity issues (warning- and info-severity issues never change
it), stays false once false, and over any whole run the result is valid
precisely when no error-severity issue was ever added. -/
theorem validity_flag_semantics :
    freshResult.valid = true
    ∧ (∀ (r : ValidationResult) (i : ValidationIssue), i.severity = Severity.error →
        (ValidationResult.addIssue r i).valid = false)
    ∧ (∀ (r : ValidationResult) (i : ValidationIssue), r.valid = false →
        (ValidationResult.addIssue r i).valid = false)
    ∧ (∀ (r : ValidationResult) (i : ValidationIssue), i.severity ≠ Severity.error →
        (ValidationResult.addIssue r i).valid = r.valid)
    ∧ (∀ (c : List (String × Nat)) (l : List ValidationIssue),
        (finishWith c l).valid = true ↔ ∀ i ∈ l, i.severity ≠ Severity.error) := by
  refine ⟨rfl, ?_, ?_, ?_, finishWith_valid_iff⟩
  · intro r i h
    simp [ValidationResult.addIssue, h]
  · intro r i h
    by_cases hs : i.severity = Severity.error <;> simp [ValidationResult.addIssue, hs, h]
  · intro r i h
    simp [ValidationResult.addIssue, h]

theorem validity_flag_semantics_witness :
    (ValidationResult.addIssue freshResult (xmlParseIssue "bad token")).valid = false
    ∧ (ValidationResult.addIssue
        { valid := false, issues := [], counts := [] } fileNotFoundIssue).valid = false
    ∧ (ValidationResult.addIssue freshResult (idFormatIssue "x y")).valid = freshResult.valid :=
  ⟨validity_flag_semantics.2.1 freshResult (xmlParseIssue "bad token") rfl,
   validity_flag_semantics.2.2.1 { valid := false, issues := [], counts := [] }
     fileNotFoundIssue rfl,
   validity_flag_semantics.2.2.2.1 freshResult (idFormatIssue "x y") (by decide)⟩

/-- C6: for every traversal and every identifier, the number of
DUPLICATE_ID findings for that identifier is the number of elements
declaring it minus one — exactly the second and later occurrences, never
the first — and the index maps the identifier to its first-occurring
declaring element, which no later duplicate overwrites. -/
theorem identifier_index_first_seen_wins (es : List Element) (i : String) :
    (buildIndex es).issues.countP (isDupIssueFor i) = es.countP (declaresId i) - 1
    ∧ List.lookup i (buildIndex es).index = es.find? (declaresId i) := by
  refine ⟨?_, buildIndex_lookup es i⟩
  rw [buildIndex_issues, dupIssuesSpec_count]
  simp

/-- C7: a parse failure yields a one-issue report — a single
error-severity level-1 XML_PARSE_ERROR whose message includes the parser
diagnostic — returned immediately with valid false, while a loaded
document always yields the full five-level report (basics, indexing,
identifier formats, start/end checks, connectivity, domain rules); only
level 1 aborts the pipeline. -/
theorem parse_failure_one_issue_report :
    (∀ diag : String,
      (runValidation (LoadResult.parseFailed diag)).issues = [xmlParseIssue diag]
      ∧ (runValidation (LoadResult.parseFailed diag)).valid = false
      ∧ (xmlParseIssue diag).level = 1
      ∧ (xmlParseIssue diag).severity = Severity.error
      ∧ (xmlParseIssue diag).code = "XML_PARSE_ERROR"
      ∧ (xmlParseIssue diag).message = "XML parse error: " ++ diag)
    ∧ (∀ root : Element,
      (runValidation (LoadResult.loaded root)).issues =
        level2Issues root ++ (buildIndex (allElements root)).issues ++
        idFormatIssues (buildIndex (allElements root)).index ++
        startEndIssues (allElements root) ++
        level4Issues (buildIndex (allElements root)).index
          (buildIndex (allElements root)).edges (allElements root) ++
        level5Issues (allElements root)) := by
  constructor
  · intro diag
    refine ⟨finishWith_issues _ _, ?_, rfl, rfl, rfl, rfl⟩
    show (finishWith [] [xmlParseIssue diag]).valid = false
    rw [finishWith_valid]
    simp [xmlParseIssue]
  · intro root
    show (finishWith (pipelineCounts root) (pipelineIssues root)).issues = _
    rw [finishWith_issues]
    rfl

/-- C10: applying caller-side strict mode to a valid result with a
non-empty warning list flips validity to false and leaves the issue list
(and counts) untouched, while the engine itself never demotes warnings:
an engine result is valid precisely when it contains no error-severity
issue, however many warnings it carries. -/
theorem strict_mode_flip_preserves_issues :
    (∀ r : ValidationResult, r.valid = true → resultWarnings r ≠ [] →
      (applyStrict r).valid = false ∧ (applyStrict r).issues = r.issues
        ∧ (applyStrict r).counts = r.counts)
    ∧ (∀ inp : LoadResult,
        (runValidation inp).valid = true ↔
          ∀ i ∈ (runValidation inp).issues, i.severity ≠ Severity.error) := by
  constructor
  · intro r h1 h2
    have h3 : (resultWarnings r).isEmpty = false := by
      rcases h : resultWarnings r with _ | ⟨a, t⟩
      · exact absurd h h2
      · rfl
    refine ⟨?_, ?_, ?_⟩ <;> simp [applyStrict, h1, h3]
  · intro inp
    cases inp <;> exact finishWith_valid_iff_issues _ _

theorem strict_mode_flip_preserves_issues_witness :
    (applyStrict (finishWith [] [idFormatIssue "a b"])).valid = false
    ∧ (applyStrict (finishWith [] [idFormatIssue "a b"])).issues =
        (finishWith [] [idFormatIssue "a b"]).issues :=
  ⟨(strict_mode_flip_preserves_issues.1 (finishWith [] [idFormatIssue "a b"])
      (by decide) (by decide)).1,
   (strict_mode_flip_preserves_issues.1 (finishWith [] [idFormatIssue "a b"])
      (by decide) (by decide)).2.1⟩

/-- C8: for an exclusive gateway with more than one outgoing flow, with S
the outgoing flows lacking both a condition expression and the default
marking: when |S| = 1 and no outgoing flow is marked default, no
MISSING_CONDITION is emitted (implicit-default tolerance); otherwise
every flow of S is individually reported as a MISSING_CONDITION
warning. -/
theorem exclusive_gateway_missing_condition (gw : Element) (flows : List Element)
    (_hmany : 1 < flows.length) :
    ((flows.filter (lacksCondAndDefault gw)).length = 1 →
      flows.all (fun f => !(isDefaultFlow gw f)) = true →
      missingConditionIssues gw flows = [])
    ∧ (¬((flows.filter (lacksCondAndDefault gw)).length = 1
          ∧ flows.all (fun f => !(isDefaultFlow gw f)) = true) →
        missingConditionIssues gw flows =
          (flows.filter (lacksCondAndDefault gw)).map missingCondIssue)
    ∧ (∀ f : Element, (missingCondIssue f).severity = Severity.warning
        ∧ (missingCondIssue f).code = "MISSING_CONDITION") := by
  refine ⟨?_, ?_, fun f => ⟨rfl, rfl⟩⟩
  · intro hlen hdef
    have hne : (flows.filter (lacksCondAndDefault gw)).isEmpty = false := by
      rcases h : flows.filter (lacksCondAndDefault gw) with _ | _
      · rw [h] at hlen; simp at hlen
      · rfl
    simp [missingConditionIssues, hne, hlen, hdef]
  · intro hcond
    rcases h : flows.filter (lacksCondAndDefault gw) with _ | ⟨f, t⟩
    · simp [missingConditionIssues, h]
    · by_cases hA : (f :: t).length = 1
      · have hB : flows.all (fun f => !(isDefaultFlow gw f)) = false := by
          cases hb : flows.all (fun f => !(isDefaultFlow gw f)) with
          | true => exact absurd ⟨by rw [h]; exact hA, hb⟩ hcond
          | false => rfl
        simp [missingConditionIssues, h, hA, hB]
      · simp [missingConditionIssues, h, hA]
        intro ht
        exact absurd (by simp [ht]) hA

theorem exclusive_gateway_missing_condition_witness :
    (missingConditionIssues (Element.mk "exclusiveGateway" [("id", "gw1")] [])
      [Element.mk "sequenceFlow" [("id", "f1")]
         [Element.mk "conditionExpression" [] []],
       Element.mk "sequenceFlow" [("id", "f2")]
         [Element.mk "conditionExpression" [] []],
       Element.mk "sequenceFlow" [("id", "f3")] []] = [])
    ∧ (missingConditionIssues (Element.mk "exclusiveGateway" [("id", "gw1")] [])
      [Element.mk "sequenceFlow" [("id", "f1")]
         [Element.mk "conditionExpression" [] []],
       Element.mk "sequenceFlow" [("id", "f2")] [],
       Element.mk "sequenceFlow" [("id", "f3")] []] =
        [missingCondIssue (Element.mk "sequenceFlow" [("id", "f2")] []),
         missingCondIssue (Element.mk "sequenceFlow" [("id", "f3")] [])]) := by
  constructor
  · exact (exclusive_gateway_missing_condition _ _ (by decide)).1 (by decide) (by decide)
  · refine ((exclusive_gateway_missing_condition _ _ (by decide)).2.1 ?_).trans (by decide)
    intro hcontra
    exact absurd hcontra.1 (by decide)

/-- C9: over any identifier index and edge list, an indexed element of a
flow-bearing kind receives an ORPHAN_ELEMENT finding precisely when it
has no incoming and no outgoing adjacency entry; every orphan finding is
an error, and none ever names a start event, end event or data object
kind. -/
theorem orphan_iff_unconnected (index : List (String × Element))
    (edges : List (String × String)) :
    (∀ (i : String) (e : Element), (i, e) ∈ index →
      flowBearingKinds.contains e.localName = true →
      (orphanIssue i e.localName ∈ orphanIssues index edges ↔
        incomingOf edges i = [] ∧ outgoingOf edges i = []))
    ∧ (∀ iss ∈ orphanIssues index edges,
        iss.severity = Severity.error ∧ iss.code = "ORPHAN_ELEMENT"
        ∧ iss.elementKind ≠ some "startEvent" ∧ iss.elementKind ≠ some "endEvent"
        ∧ iss.elementKind ≠ some "dataObject") := by
  constructor
  · intro i e hmem hfb
    constructor
    · intro hin
      rw [orphanIssues, List.mem_filterMap] at hin
      obtain ⟨p, _, hfp⟩ := hin
      split at hfp
      case isTrue hc =>
        have hinj : some (orphanIssue p.1 p.2.localName) = some (orphanIssue i e.localName) :=
          hfp
        have hpe : orphanIssue p.1 p.2.localName = orphanIssue i e.localName :=
          Option.some.inj hinj
        have hpi : p.1 = i :=
          Option.some.inj (congrArg ValidationIssue.elementId hpe)
        rw [Bool.and_eq_true, Bool.and_eq_true] at hc
        refine ⟨?_, ?_⟩
        · rw [← List.isEmpty_iff, ← hpi]; exact hc.1.2
        · rw [← List.isEmpty_iff, ← hpi]; exact hc.2
      case isFalse => cases hfp
    · rintro ⟨hin, hout⟩
      rw [orphanIssues, List.mem_filterMap]
      refine ⟨(i, e), hmem, ?_⟩
      have h1 : (incomingOf edges i).isEmpty = true := by rw [List.isEmpty_iff]; exact hin
      have h2 : (outgoingOf edges i).isEmpty = true := by rw [List.isEmpty_iff]; exact hout
      simp [h1, h2]
      simpa using hfb
  · intro iss hin
    rw [orphanIssues, List.mem_filterMap] at hin
    obtain ⟨p, _, hfp⟩ := hin
    split at hfp
    case isTrue hc =>
      have hiss : iss = orphanIssue p.1 p.2.localName := (Option.some.inj hfp).symm
      rw [Bool.and_eq_true, Bool.and_eq_true] at hc
      have hcontains : flowBearingKinds.contains p.2.localName = true := hc.1.1
      have hkind : iss.elementKind = some p.2.localName := by rw [hiss]; rfl
      refine ⟨by rw [hiss]; rfl, by rw [hiss]; rfl, ?_, ?_, ?_⟩ <;>
        · rw [hkind]
          intro hcontra
          have := Option.some.inj hcontra
          rw [this] at hcontains
          exact absurd hcontains (by decide)
    case isFalse => cases hfp

theorem orphan_iff_unconnected_witness :
    orphanIssue "t1" "task" ∈
      orphanIssues [("t1", Element.mk "task" [("id", "t1")] [])] [] :=
  ((orphan_iff_unconnected [("t1", Element.mk "task" [("id", "t1")] [])] []).1
    "t1" (Element.mk "task" [("id", "t1")] [])
    (List.mem_singleton.mpr rfl) (by decide)).mpr ⟨rfl, rfl⟩

theorem validate_expense_ok (d : PyDict) (r : ExpenseResult)
    (h : validate_expense d = Except.ok r) :
    ∃ (catErrs : List String) (category : String) (dErrs : List String) (a : Int),
      categoryStep d = Except.ok (catErrs, category)
      ∧ dateErrors d = Except.ok dErrs
      ∧ (pyGetD d "amount" (PVal.int 0)).toNum = some a
      ∧ r = buildResult d catErrs category dErrs a := by
  unfold validate_expense at h
  split at h
  · cases h
  · split at h
    · cases h
    · split at h
      · cases h
      · exact ⟨_, _, _, _, by assumption, by assumption, by assumption,
          (Except.ok.inj h).symm⟩

theorem amountErrors_cases (d : PyDict) :
    amountErrors d = ["Amount is required"] ∨ amountErrors d = ["Amount must be a number"]
      ∨ amountErrors d = ["Amount must be positive"] ∨ amountErrors d = [] := by
  unfold amountErrors
  split
  · exact Or.inl rfl
  · split
    · exact Or.inr (Or.inl rfl)
    · split
      · exact Or.inr (Or.inr (Or.inl rfl))
      · exact Or.inr (Or.inr (Or.inr rfl))

theorem categoryStep_errs (d : PyDict) (catErrs : List String) (category : String)
    (hc : categoryStep d = Except.ok (catErrs, category)) :
    catErrs = [] ∨ catErrs = ["Category is required"]
      ∨ catErrs =
        ["Invalid category. Must be one of: travel, meals, supplies, equipment, training, other"] := by
  unfold categoryStep at hc
  split at hc
  · cases hc
  · split at hc
    · exact Or.inr (Or.inl (congrArg Prod.fst (Except.ok.inj hc)).symm)
    · split at hc
      · exact Or.inr (Or.inr (congrArg Prod.fst (Except.ok.inj hc)).symm)
      · exact Or.inl (congrArg Prod.fst (Except.ok.inj hc)).symm

theorem dateErrors_ok_cases (d : PyDict) (dErrs : List String)
    (hd : dateErrors d = Except.ok dErrs) :
    dErrs = ["Date is required"] ∨ dErrs = ["Date must be in YYYY-MM-DD format"]
      ∨ dErrs = [] := by
  unfold dateErrors at hd
  split at hd
  · exact Or.inl (Except.ok.inj hd).symm
  · split at hd
    · split at hd
      · exact Or.inr (Or.inl (Except.ok.inj hd).symm)
      · exact Or.inr (Or.inr (Except.ok.inj hd).symm)
    · cases hd

theorem base_count_zero (d : PyDict) (catErrs : List String) (category : String)
    (dErrs : List String) (hc : categoryStep d = Except.ok (catErrs, category))
    (hd : dateErrors d = Except.ok dErrs) :
    (amountErrors d ++ catErrs ++ dErrs).count receiptErrMsg = 0
    ∧ (amountErrors d ++ catErrs ++ dErrs).count receiptWarnMsg = 0 := by
  have ha := amountErrors_cases d
  have hcs := categoryStep_errs d catErrs category hc
  have hds := dateErrors_ok_cases d dErrs hd
  constructor <;>
  · rw [List.count_append, List.count_append]
    rcases ha with h | h | h | h <;> rw [h] <;>
      rcases hcs with h2 | h2 | h2 <;> rw [h2] <;>
        rcases hds with h3 | h3 | h3 <;> rw [h3] <;>
          simp [receiptErrMsg, receiptWarnMsg, List.count_cons]

theorem buildResult_valid (d : PyDict) (catErrs : List String) (category : String)
    (dErrs : List String) (a : Int) :
    (buildResult d catErrs category dErrs a).valid =
      (buildResult d catErrs category dErrs a).errors.isEmpty := rfl

theorem buildResult_errors (d : PyDict) (catErrs : List String) (category : String)
    (dErrs : List String) (a : Int) :
    (buildResult d catErrs category dErrs a).errors =
      if a > 25 ∧ (pyGet d "receipt_url").truthy = false then
        if a > 100 then (amountErrors d ++ catErrs ++ dErrs) ++ [receiptErrMsg]
        else amountErrors d ++ catErrs ++ dErrs
      else amountErrors d ++ catErrs ++ dErrs := by
  unfold buildResult
  by_cases h1 : a > 25 ∧ (pyGet d "receipt_url").truthy = false
  · by_cases h2 : a > 100 <;> simp [h1, h2]
  · simp [h1]

theorem buildResult_warnings (d : PyDict) (catErrs : List String) (category : String)
    (dErrs : List String) (a : Int) :
    (buildResult d catErrs category dErrs a).warnings =
      (if a > 25 ∧ (pyGet d "receipt_url").truthy = false ∧ ¬(a > 100) then [receiptWarnMsg]
       else [])
      ++ (if a > 500 ∧ (pyGet d "description").truthy = false then
            ["Description recommended for expenses over $500"]
          else []) := by
  by_cases h1 : a > 25 ∧ (pyGet d "receipt_url").truthy = false
  · by_cases h2 : a > 100
    · have hw : ¬(a > 25 ∧ (pyGet d "receipt_url").truthy = false ∧ ¬(a > 100)) :=
        fun hcon => hcon.2.2 h2
      rw [if_neg hw]
      unfold buildResult
      simp [h1, h2]
    · have hw : a > 25 ∧ (pyGet d "receipt_url").truthy = false ∧ ¬(a > 100) :=
        ⟨h1.1, h1.2, h2⟩
      have h5 : ¬(a > 500 ∧ (pyGet d "description").truthy = false) := by
        rintro ⟨h5a, _⟩
        exact h2 (by omega)
      rw [if_pos hw, if_neg h5]
      unfold buildResult
      simp [h1, h2, h5]
  · have hw : ¬(a > 25 ∧ (pyGet d "receipt_url").truthy = false ∧ ¬(a > 100)) :=
      fun hcon => h1 ⟨hcon.1, hcon.2.1⟩
    rw [if_neg hw]
    unfold buildResult
    simp [h1]

theorem buildResult_approval (d : PyDict) (catErrs : List String) (category : String)
    (dErrs : List String) (a : Int) :
    (buildResult d catErrs category dErrs a).approval_level =
      (if a < 100 then "auto" else if a < 500 then "manager" else "finance") := rfl

/-- C1 (amended): on every input dictionary on which validate_expense
returns a result (it raises a TypeError or AttributeError on some
dictionaries instead), the returned valid field is true exactly when the
returned errors list is empty; warnings play no part in it. -/
theorem expense_valid_iff_no_errors (d : PyDict) (r : ExpenseResult)
    (h : validate_expense d = Except.ok r) :
    r.valid = true ↔ r.errors = [] := by
  obtain ⟨ce, cat, de, a, hc, hd, ha, rfl⟩ := validate_expense_ok d r h
  rw [buildResult_valid]
  exact List.isEmpty_iff

/-- C1 counterexample: on the dictionary carrying amount None the
function raises a TypeError at the line-51 comparison and returns no
dictionary at all, so the claim's universal form fails. -/
theorem expense_valid_iff_counterexample :
    validate_expense [("amount", PVal.none)] =
      Except.error "TypeError: comparison not supported between non-number and int" := by
  decide

theorem expense_valid_iff_no_errors_witness :
    validate_expense
        [("amount", PVal.int 50), ("category", PVal.str "meals"),
         ("date", PVal.str "2024-01-15")] =
      Except.ok
        { valid := true, errors := [], warnings := [receiptWarnMsg],
          approval_level := "auto", amount := PVal.int 50, category := "meals" }
    ∧ (({ valid := true, errors := [], warnings := [receiptWarnMsg],
          approval_level := "auto", amount := PVal.int 50,
          category := "meals" } : ExpenseResult).valid = true ↔
        ({ valid := true, errors := [], warnings := [receiptWarnMsg],
           approval_level := "auto", amount := PVal.int 50,
           category := "meals" } : ExpenseResult).errors = []) :=
  ⟨by decide,
   expense_valid_iff_no_errors
     [("amount", PVal.int 50), ("category", PVal.str "meals"),
      ("date", PVal.str "2024-01-15")]
     { valid := true, errors := [], warnings := [receiptWarnMsg],
       approval_level := "auto", amount := PVal.int 50, category := "meals" }
     (by decide)⟩

/-- C2 (amended): on every input dictionary on which validate_expense
returns, the amount value (with the line-50 default 0 applying only to a
missing key) is a number, and the approval level is determined solely by
its numeric value a — auto for a < 100, manager for 100 <= a < 500,
finance for a >= 500; in particular a dictionary with no amount key at
all is reported invalid yet still receives approval level auto.  A falsy
non-numeric amount value (None or an empty string) is not treated as 0:
the function raises a TypeError instead of returning. -/
theorem approval_level_thresholds (d : PyDict) (r : ExpenseResult)
    (h : validate_expense d = Except.ok r) :
    ∃ a : Int, (pyGetD d "amount" (PVal.int 0)).toNum = some a
      ∧ r.approval_level = (if a < 100 then "auto" else if a < 500 then "manager" else "finance")
      ∧ (List.lookup "amount" d = Option.none →
          r.valid = false ∧ r.approval_level = "auto") := by
  obtain ⟨ce, cat, de, a, hc, hd, ha, rfl⟩ := validate_expense_ok d r h
  refine ⟨a, ha, buildResult_approval d ce cat de a, ?_⟩
  intro hnone
  have ha0 : a = 0 := by
    unfold pyGetD at ha
    rw [hnone] at ha
    simpa [PVal.toNum] using ha.symm
  subst ha0
  constructor
  · have hPy : pyGet d "amount" = PVal.none := by unfold pyGet; rw [hnone]
    have hAE : amountErrors d = ["Amount is required"] := by
      unfold amountErrors
      rw [hPy]
      rfl
    rw [buildResult_valid, buildResult_errors]
    have : ¬((0 : Int) > 25 ∧ (pyGet d "receipt_url").truthy = false) := by
      rintro ⟨hcon, _⟩
      omega
    rw [if_neg this, hAE]
    rfl
  · rw [buildResult_approval]
    rfl

/-- C2 counterexample: amount stored as the falsy empty string is not
treated as 0 — the function raises a TypeError at the line-51 comparison
and returns no approval level. -/
theorem approval_level_counterexample :
    validate_expense [("amount", PVal.str "")] =
      Except.error "TypeError: comparison not supported between non-number and int" := by
  decide

theorem approval_level_thresholds_witness :
    validate_expense [("category", PVal.str "meals"), ("date", PVal.str "2024-01-15")] =
      Except.ok
        { valid := false, errors := ["Amount is required"], warnings := [],
          approval_level := "auto", amount := PVal.int 0, category := "meals" }
    ∧ ({ valid := false, errors := ["Amount is required"], warnings := [],
         approval_level := "auto", amount := PVal.int 0,
         category := "meals" } : ExpenseResult).valid = false
    ∧ ({ valid := false, errors := ["Amount is required"], warnings := [],
         approval_level := "auto", amount := PVal.int 0,
         category := "meals" } : ExpenseResult).approval_level = "auto" := by
  refine ⟨by decide, ?_, ?_⟩
  · obtain ⟨a, ha, h1, h2⟩ := approval_level_thresholds _ _
      (show validate_expense [("category", PVal.str "meals"), ("date", PVal.str "2024-01-15")] =
        Except.ok
          { valid := false, errors := ["Amount is required"], warnings := [],
            approval_level := "auto", amount := PVal.int 0, category := "meals" } by decide)
    exact (h2 (by decide)).1
  · obtain ⟨a, ha, h1, h2⟩ := approval_level_thresholds _ _
      (show validate_expense [("category", PVal.str "meals"), ("date", PVal.str "2024-01-15")] =
        Except.ok
          { valid := false, errors := ["Amount is required"], warnings := [],
            approval_level := "auto", amount := PVal.int 0, category := "meals" } by decide)
    exact (h2 (by decide)).2

/-- C3: on every input dictionary on which validate_expense returns and
whose receipt_url is absent or falsy: amounts over 100 get exactly one
receipt error and no receipt warning, amounts in (25, 100] get exactly
one receipt warning and no receipt error, and amounts up to 25 get
neither; moreover on any single input (with or without a receipt) the
receipt error and the receipt warning never occur together. -/
theorem receipt_requirement_rules (d : PyDict) (r : ExpenseResult)
    (h : validate_expense d = Except.ok r) :
    (∀ a : Int, (pyGetD d "amount" (PVal.int 0)).toNum = some a →
      (pyGet d "receipt_url").truthy = false →
      ((100 < a → r.errors.count receiptErrMsg = 1 ∧ r.warnings.count receiptWarnMsg = 0)
       ∧ (25 < a → a ≤ 100 →
           r.warnings.count receiptWarnMsg = 1 ∧ r.errors.count receiptErrMsg = 0)
       ∧ (a ≤ 25 → r.errors.count receiptErrMsg = 0 ∧ r.warnings.count receiptWarnMsg = 0)))
    ∧ ¬(receiptErrMsg ∈ r.errors ∧ receiptWarnMsg ∈ r.warnings) := by
  obtain ⟨ce, cat, de, a0, hc, hd, ha, rfl⟩ := validate_expense_ok d r h
  have hbase := base_count_zero d ce cat de hc hd
  constructor
  · intro a ha2 hrec
    have haa : a = a0 := Option.some.inj (ha2.symm.trans ha)
    subst haa
    refine ⟨?_, ?_, ?_⟩
    · intro h100
      constructor
      · rw [buildResult_errors, if_pos ⟨by omega, hrec⟩, if_pos h100, List.count_append,
          hbase.1]
        simp
      · rw [buildResult_warnings, if_neg (fun hcon => hcon.2.2 h100)]
        split <;> simp [receiptWarnMsg]
    · intro h25 h100
      constructor
      · rw [buildResult_warnings, if_pos ⟨h25, hrec, by omega⟩,
          if_neg (show ¬(a > 500 ∧ (pyGet d "description").truthy = false) by
            rintro ⟨hcon, _⟩; omega)]
        simp [receiptWarnMsg]
      · rw [buildResult_errors, if_pos ⟨h25, hrec⟩, if_neg (by omega)]
        exact hbase.1
    · intro h25
      constructor
      · rw [buildResult_errors, if_neg (by rintro ⟨hcon, _⟩; omega)]
        exact hbase.1
      · rw [buildResult_warnings, if_neg (by rintro ⟨hcon, _⟩; omega)]
        split <;> simp [receiptWarnMsg]
  · rintro ⟨herr, hwarn⟩
    rw [buildResult_errors] at herr
    rw [buildResult_warnings] at hwarn
    by_cases h1 : a0 > 25 ∧ (pyGet d "receipt_url").truthy = false
    · by_cases h2 : a0 > 100
      · rw [if_neg (fun hcon => hcon.2.2 h2)] at hwarn
        rw [List.nil_append] at hwarn
        split at hwarn
        · simp [receiptWarnMsg] at hwarn
        · simp at hwarn
      · rw [if_pos h1, if_neg h2] at herr
        exact absurd herr (List.count_eq_zero.mp hbase.1)
    · rw [if_neg h1] at herr
      exact absurd herr (List.count_eq_zero.mp hbase.1)

theorem receipt_requirement_rules_witness :
    validate_expense
        [("amount", PVal.int 50), ("category", PVal.str "travel"),
         ("date", PVal.str "2024-02-02")] =
      Except.ok
        { valid := true, errors := [], warnings := [receiptWarnMsg],
          approval_level := "auto", amount := PVal.int 50, category := "travel" }
    ∧ ({ valid := true, errors := [], warnings := [receiptWarnMsg],
         approval_level := "auto", amount := PVal.int 50,
         category := "travel" } : ExpenseResult).warnings.count receiptWarnMsg = 1
    ∧ ({ valid := true, errors := [], warnings := [receiptWarnMsg],
         approval_level := "auto", amount := PVal.int 50,
         category := "travel" } : ExpenseResult).errors.count receiptErrMsg = 0 := by
  refine ⟨by decide, ?_, ?_⟩
  all_goals
    obtain ⟨hrules, hexcl⟩ := receipt_requirement_rules
      [("amount", PVal.int 50), ("category", PVal.str "travel"),
       ("date", PVal.str "2024-02-02")]
      { valid := true, errors := [], warnings := [receiptWarnMsg],
        approval_level := "auto", amount := PVal.int 50, category := "travel" }
      (by decide)
  · exact ((hrules 50 (by decide) (by decide)).2.1 (by omega) (by omega)).1
  · exact ((hrules 50 (by decide) (by decide)).2.1 (by omega) (by omega)).2
